import Mathlib

/-!
Verification of the CloudGPTRP character-creation and image-generation core.

This file gives a shallow embedding of the image-generation utility
(`generateImage`, `base64ToFile` and friends from the image-generation module)
and of the character-creation workflow (`handleSubmit` of
`CreateCharacterModal.tsx`), together with theorems settling the behavioural
claims about them.  HTTP effects are modelled by an explicit `world` oracle
mapping the issued request to an outcome; stores are modelled as association
lists threaded through the workflow.
-/

set_option maxHeartbeats 1000000

namespace CloudGPTRP

/-- Model of JS `String.prototype.trim()`: remove leading and trailing
whitespace. -/
def jsTrim (s : String) : String :=
  ⟨((s.data.dropWhile Char.isWhitespace).reverse.dropWhile Char.isWhitespace).reverse⟩

/-- JS truthiness of an optional string field: an absent (`undefined`) field
and the empty string are falsy, every other string is truthy. -/
def jsTruthy : Option String → Bool
  | none => false
  | some s => s != ""

/-- JS `a || b` where `a` is an optional string expression: yields `b` when
`a` is absent or the empty string. -/
def jsOrElse : Option String → String → String
  | none, b => b
  | some s, b => if s = "" then b else s

/-- `ImageGenerationOptions` of the image-generation module: `model`, `size`,
`quality` and `n` are optional and defaulted inside `generateImage`. -/
structure ImageGenerationOptions where
  prompt : String
  apiKey : String
  baseUrl : String
  model : Option String := none
  size : Option String := none
  quality : Option String := none
  n : Option Nat := none
deriving DecidableEq

/-- `ImageGenerationResult`: the tagged outcome union returned by
`generateImage`. -/
structure ImageGenerationResult where
  success : Bool
  imageUrl : Option String := none
  imageData : Option String := none
  error : Option String := none
deriving DecidableEq

/-- One item of the remote endpoint's success body: `{url?, b64_json?}`. -/
structure ResponseItem where
  url : Option String := none
  b64_json : Option String := none
deriving DecidableEq

/-- Parsed JSON success body: `{ data?: [ResponseItem, ...] }`. -/
structure ResponseBody where
  data : Option (List ResponseItem) := none
deriving DecidableEq

/-- The JSON body sent by `generateImage` in its single POST. -/
structure RequestBody where
  model : String
  prompt : String
  n : Nat
  size : String
  quality : String
  response_format : String
deriving DecidableEq

/-- The HTTP request issued by `generateImage`: endpoint, bearer token and
JSON body. -/
structure HttpRequest where
  endpoint : String
  bearer : String
  body : RequestBody
deriving DecidableEq

/-- Outcome of `response.json()` on a success response: either a parsed body
or a raised parse error. -/
inductive JsonParse where
  | parsed (body : ResponseBody)
  | raised (msg : String)
deriving DecidableEq

/-- Behaviour of one `fetch` call: the promise either rejects (`thrown`) or
resolves to a response with `ok`, `status`, the error body's
`error?.message` field (for the non-ok path, where `.catch(() => ({}))`
makes the parse total), and the parse outcome of the success body. -/
inductive FetchOutcome where
  | thrown (msg : String)
  | response (ok : Bool) (status : Nat) (errMsg : Option String) (jsonBody : JsonParse)

/-- `baseUrl.replace(/\/+$/, "")`: strip every trailing `/`. -/
def stripTrailingSlashes (s : String) : String :=
  ⟨(s.data.reverse.dropWhile (fun c => c = '/')).reverse⟩

/-- The endpoint string built by `generateImage`:
cleaned base URL followed by the fixed sub-path. -/
def endpointOf (baseUrl : String) : String :=
  stripTrailingSlashes baseUrl ++ "/images/generations"

/-- The one HTTP request `generateImage` can issue, as built from the
options after validation: the normalized endpoint, the bearer token, and the
JSON body with defaulted `model`/`size`/`quality`/`n`, the trimmed prompt
and `response_format: "url"`. -/
def theRequest (options : ImageGenerationOptions) : HttpRequest :=
  { endpoint := endpointOf options.baseUrl
    bearer := options.apiKey
    body := { model := options.model.getD "dall-e-3", prompt := jsTrim options.prompt,
              n := options.n.getD 1, size := options.size.getD "1024x1024",
              quality := options.quality.getD "standard", response_format := "url" } }

/-- The decision `generateImage` takes on a parsed success body: only the
first item of `data` is inspected, its `url` field before its `b64_json`
field, JS-truthily. -/
def resultOfBody (body : ResponseBody) : ImageGenerationResult :=
  match body.data with
  | some (item :: _) =>
    if jsTruthy item.url then { success := true, imageUrl := item.url }
    else if jsTruthy item.b64_json then { success := true, imageData := item.b64_json }
    else { success := false, error := some "No image data in response" }
  | _ => { success := false, error := some "No image data in response" }

/-- The `try`-block of `generateImage` (steps 1-5): validation, request
construction, the single POST, and response-shape analysis.  A raised
exception (rejected fetch or failing `response.json()`) is an `Except.error`
carrying the message and the requests issued so far. -/
def generateImageBody (options : ImageGenerationOptions)
    (world : HttpRequest → FetchOutcome) :
    Except (String × List HttpRequest) (ImageGenerationResult × List HttpRequest) :=
  if jsTrim options.prompt = "" then
    .ok ({ success := false, error := some "Image prompt is required" }, [])
  else if jsTrim options.apiKey = "" then
    .ok ({ success := false, error := some "API key is required" }, [])
  else if jsTrim options.baseUrl = "" then
    .ok ({ success := false, error := some "API base URL is required" }, [])
  else
    match world (theRequest options) with
    | .thrown msg => .error (msg, [theRequest options])
    | .response ok status errMsg jsonBody =>
      if ok then
        match jsonBody with
        | .raised msg => .error (msg, [theRequest options])
        | .parsed body => .ok (resultOfBody body, [theRequest options])
      else
        .ok ({ success := false,
               error := some (jsOrElse errMsg
                 ("API request failed with status " ++ Nat.repr status)) },
             [theRequest options])

/-- `generateImage`: the try-block wrapped in the boundary `catch`, which
converts any raised error into `{success: false, error: error.message ||
"Failed to generate image"}`.  The second component is the list of HTTP
requests issued during the call. -/
def generateImage (options : ImageGenerationOptions)
    (world : HttpRequest → FetchOutcome) :
    ImageGenerationResult × List HttpRequest :=
  match generateImageBody options world with
  | .ok r => r
  | .error (msg, reqs) =>
      ({ success := false,
         error := some (if msg = "" then "Failed to generate image" else msg) }, reqs)

/-! ### Lemmas about trailing-slash normalization -/

theorem dropWhile_replicate_slash_append (k : Nat) (l : List Char) :
    (List.replicate k '/' ++ l).dropWhile (fun c => c = '/') =
      l.dropWhile (fun c => c = '/') := by
  induction k with
  | zero => simp
  | succ k ih => simp [List.replicate_succ, ih]

/-- A string followed by `k` extra `/` characters. -/
def appendSlashes (s : String) (k : Nat) : String :=
  ⟨s.data ++ List.replicate k '/'⟩

theorem stripTrailingSlashes_appendSlashes (s : String) (k : Nat) :
    stripTrailingSlashes (appendSlashes s k) = stripTrailingSlashes s := by
  simp [stripTrailingSlashes, appendSlashes, List.reverse_append,
    dropWhile_replicate_slash_append]

/-- C7: for every pair of `baseUrl` strings that differ only in the number of
trailing slash characters, the generation endpoint string constructed by
`generateImage` (stripped base URL plus the fixed sub-path) is identical. -/
theorem endpoint_ignores_trailing_slashes (s : String) (k m : Nat) :
    endpointOf (appendSlashes s k) = endpointOf (appendSlashes s m) := by
  simp [endpointOf, stripTrailingSlashes_appendSlashes]

/-- A well-formed member of the `ImageGenerationResult` union: a success, or
a failure carrying an error message. -/
def resultWF (r : ImageGenerationResult) : Prop :=
  (r.success = true ∧ r.error = none) ∨ (r.success = false ∧ ∃ e, r.error = some e)

theorem resultWF_resultOfBody (body : ResponseBody) : resultWF (resultOfBody body) := by
  unfold resultOfBody resultWF
  repeat' split
  all_goals simp

theorem generateImageBody_ok_wf (o : ImageGenerationOptions)
    (world : HttpRequest → FetchOutcome) :
    ∀ r reqs, generateImageBody o world = .ok (r, reqs) → resultWF r := by
  intro r reqs h
  unfold generateImageBody at h
  repeat' split at h
  all_goals try simp only [Except.ok.injEq, Prod.mk.injEq] at h
  all_goals try (obtain ⟨h1, h2⟩ := h; subst h1)
  all_goals
    first
    | exact resultWF_resultOfBody _
    | simp at h
    | simp [resultWF]

/-- C2: for every input and every behaviour of the HTTP layer (including a
rejected fetch and a failing `response.json()`), `generateImage` returns a
value of the `ImageGenerationResult` union: either a success, or a failure
carrying an error message.  Totality over every `FetchOutcome` (in
particular `thrown`) is exactly the guarantee that no raised error
propagates to the caller. -/
theorem generateImage_never_raises (o : ImageGenerationOptions)
    (world : HttpRequest → FetchOutcome) :
    ((generateImage o world).1.success = true ∧
        (generateImage o world).1.error = none) ∨
      ((generateImage o world).1.success = false ∧
        ∃ e, (generateImage o world).1.error = some e) := by
  unfold generateImage
  cases hx : generateImageBody o world with
  | ok r =>
    obtain ⟨r1, reqs⟩ := r
    simpa [resultWF] using generateImageBody_ok_wf o world r1 reqs hx
  | error e =>
    obtain ⟨msg, reqs⟩ := e
    exact Or.inr ⟨rfl, _, rfl⟩

/-- C3: for every request whose `prompt`, `apiKey` or `baseUrl` is empty or
whitespace-only after trimming, `generateImage` returns the corresponding
`... is required` failure immediately, and the list of issued HTTP requests
is empty (zero network calls). -/
theorem generateImage_validates_before_network (o : ImageGenerationOptions)
    (world : HttpRequest → FetchOutcome) :
    (jsTrim o.prompt = "" →
      generateImage o world =
        ({ success := false, error := some "Image prompt is required" }, [])) ∧
    (jsTrim o.prompt ≠ "" → jsTrim o.apiKey = "" →
      generateImage o world =
        ({ success := false, error := some "API key is required" }, [])) ∧
    (jsTrim o.prompt ≠ "" → jsTrim o.apiKey ≠ "" → jsTrim o.baseUrl = "" →
      generateImage o world =
        ({ success := false, error := some "API base URL is required" }, [])) := by
  refine ⟨fun h1 => ?_, fun h1 h2 => ?_, fun h1 h2 h3 => ?_⟩
  · simp [generateImage, generateImageBody, h1]
  · simp [generateImage, generateImageBody, h1, h2]
  · simp [generateImage, generateImageBody, h1, h2, h3]

theorem generateImage_validates_before_network_witness :
    (jsTrim "   " = "" ∧
      generateImage { prompt := "   ", apiKey := "k", baseUrl := "https://api" }
          (fun _ => .thrown "network down") =
        ({ success := false, error := some "Image prompt is required" }, [])) :=
  ⟨by decide,
    (generateImage_validates_before_network _ (fun _ => .thrown "network down")).1
      (by decide)⟩

theorem generateImageBody_ok_requests (o : ImageGenerationOptions)
    (world : HttpRequest → FetchOutcome) :
    ∀ r reqs, generateImageBody o world = .ok (r, reqs) →
      ∀ req ∈ reqs, req = theRequest o := by
  intro r reqs h
  unfold generateImageBody at h
  repeat' split at h
  all_goals try simp only [Except.ok.injEq, Prod.mk.injEq] at h
  all_goals first | (obtain ⟨h1, h2⟩ := h; subst h2; simp) | simp at h

theorem generateImageBody_error_requests (o : ImageGenerationOptions)
    (world : HttpRequest → FetchOutcome) :
    ∀ msg reqs, generateImageBody o world = .error (msg, reqs) →
      ∀ req ∈ reqs, req = theRequest o := by
  intro msg reqs h
  unfold generateImageBody at h
  repeat' split at h
  all_goals try simp only [Except.error.injEq, Prod.mk.injEq] at h
  all_goals first | (obtain ⟨h1, h2⟩ := h; subst h2; simp) | simp at h

theorem generateImage_requests (o : ImageGenerationOptions)
    (world : HttpRequest → FetchOutcome) :
    ∀ req ∈ (generateImage o world).2, req = theRequest o := by
  unfold generateImage
  cases hx : generateImageBody o world with
  | ok r =>
    obtain ⟨r1, reqs⟩ := r
    simpa using generateImageBody_ok_requests o world r1 reqs hx
  | error e =>
    obtain ⟨m, reqs⟩ := e
    simpa using generateImageBody_error_requests o world m reqs hx

/-- C10: when `model`, `size`, `quality` and `n` are omitted, `generateImage`
behaves identically to the call with `model := "dall-e-3"`,
`size := "1024x1024"`, `quality := "standard"`, `n := 1` supplied
explicitly, and every HTTP request it issues carries exactly those
defaults. -/
theorem generateImage_defaults (o : ImageGenerationOptions)
    (world : HttpRequest → FetchOutcome)
    (hm : o.model = none) (hs : o.size = none)
    (hq : o.quality = none) (hn : o.n = none) :
    generateImage o world =
      generateImage { o with model := some "dall-e-3", size := some "1024x1024",
                             quality := some "standard", n := some 1 } world ∧
    ∀ req ∈ (generateImage o world).2,
      req.body.model = "dall-e-3" ∧ req.body.size = "1024x1024" ∧
        req.body.quality = "standard" ∧ req.body.n = 1 := by
  obtain ⟨p, k, b, m, s, q, n⟩ := o
  simp only at hm hs hq hn
  subst hm hs hq hn
  refine ⟨rfl, ?_⟩
  intro req hreq
  have h := generateImage_requests _ _ req hreq
  subst h
  simp [theRequest]

theorem generateImage_defaults_witness :
    (({ prompt := "a cat", apiKey := "k", baseUrl := "https://api" } :
        ImageGenerationOptions).model = none ∧
      ({ prompt := "a cat", apiKey := "k", baseUrl := "https://api" } :
        ImageGenerationOptions).size = none ∧
      ({ prompt := "a cat", apiKey := "k", baseUrl := "https://api" } :
        ImageGenerationOptions).quality = none ∧
      ({ prompt := "a cat", apiKey := "k", baseUrl := "https://api" } :
        ImageGenerationOptions).n = none) ∧
    (generateImage { prompt := "a cat", apiKey := "k", baseUrl := "https://api" }
        (fun _ => .response true 200 none (.parsed { data := some [{ url := some "https://img" }] })) =
      generateImage { prompt := "a cat", apiKey := "k", baseUrl := "https://api",
                      model := some "dall-e-3", size := some "1024x1024",
                      quality := some "standard", n := some 1 }
        (fun _ => .response true 200 none (.parsed { data := some [{ url := some "https://img" }] })) ∧
    ∀ req ∈ (generateImage { prompt := "a cat", apiKey := "k", baseUrl := "https://api" }
        (fun _ => .response true 200 none (.parsed { data := some [{ url := some "https://img" }] }))).2,
      req.body.model = "dall-e-3" ∧ req.body.size = "1024x1024" ∧
        req.body.quality = "standard" ∧ req.body.n = 1) :=
  ⟨⟨rfl, rfl, rfl, rfl⟩,
    generateImage_defaults _ _ rfl rfl rfl rfl⟩

/-! ### C4: response-shape precedence -/

/-- C4 as stated is false: `generateImage` inspects only the first item of
`data`.  Here the body contains a result item with a hosted URL (the second
one), yet the call returns the `No image data in response` failure instead
of a success. -/
theorem generate_second_item_url_counterexample :
    (∃ item ∈ [({ url := none, b64_json := none } : ResponseItem),
               { url := some "https://img/1.png", b64_json := none }],
        jsTruthy item.url = true) ∧
    (generateImage { prompt := "a cat", apiKey := "key", baseUrl := "https://api" }
        (fun _ => .response true 200 none
          (.parsed { data := some [{ url := none, b64_json := none },
                                   { url := some "https://img/1.png", b64_json := none }] }))).1 =
      { success := false, error := some "No image data in response" } := by
  constructor
  · exact ⟨{ url := some "https://img/1.png", b64_json := none }, by simp, by decide⟩
  · rfl

theorem resultOfBody_exactly_one (body : ResponseBody) :
    (resultOfBody body).success = true →
      ((resultOfBody body).imageUrl.isSome ∧ (resultOfBody body).imageData = none) ∨
        ((resultOfBody body).imageUrl = none ∧ (resultOfBody body).imageData.isSome) := by
  rcases body with ⟨d⟩
  rcases d with _ | ⟨_ | ⟨item, rest⟩⟩
  · simp [resultOfBody]
  · simp [resultOfBody]
  · by_cases hu : jsTruthy item.url = true
    · cases h : item.url with
      | none => rw [h] at hu; simp [jsTruthy] at hu
      | some u => rw [h] at hu; simp [resultOfBody, h, hu]
    · by_cases hb2 : jsTruthy item.b64_json = true
      · cases h : item.b64_json with
        | none => rw [h] at hb2; simp [jsTruthy] at hb2
        | some b => rw [h] at hb2; simp [resultOfBody, hu, h, hb2]
      · simp [resultOfBody, hu, hb2]

theorem resultOfBody_precedence (body : ResponseBody) :
    match body.data with
    | some (item :: _) =>
       (jsTruthy item.url = true → resultOfBody body = { success := true, imageUrl := item.url }) ∧
       (jsTruthy item.url = false → jsTruthy item.b64_json = true →
         resultOfBody body = { success := true, imageData := item.b64_json }) ∧
       (jsTruthy item.url = false → jsTruthy item.b64_json = false →
         resultOfBody body = { success := false, error := some "No image data in response" })
    | _ => resultOfBody body =
       { success := false, error := some "No image data in response" } := by
  rcases body with ⟨d⟩
  rcases d with _ | ⟨_ | ⟨item, rest⟩⟩
  · simp [resultOfBody]
  · simp [resultOfBody]
  · refine ⟨fun h1 => ?_, fun h1 h2 => ?_, fun h1 h2 => ?_⟩
    · simp [resultOfBody, h1]
    · simp [resultOfBody, h1, h2]
    · simp [resultOfBody, h1, h2]

/-- C4 (amended): for every HTTP-success response body, the outcome is
decided by the FIRST item of `data` alone, its truthy `url` field taking
precedence over its truthy `b64_json` field; an absent/empty `data`, or a
first item with neither field truthy, yields the
`No image data in response` failure.  On success exactly one of
`imageUrl`/`imageData` is populated, never both. -/
theorem generate_first_item_precedence (o : ImageGenerationOptions)
    (body : ResponseBody) (status : Nat) (errMsg : Option String)
    (hp : jsTrim o.prompt ≠ "") (hk : jsTrim o.apiKey ≠ "")
    (hb : jsTrim o.baseUrl ≠ "") :
    (generateImage o (fun _ => .response true status errMsg (.parsed body))).1 =
      resultOfBody body ∧
    ((resultOfBody body).success = true →
      ((resultOfBody body).imageUrl.isSome ∧ (resultOfBody body).imageData = none) ∨
        ((resultOfBody body).imageUrl = none ∧ (resultOfBody body).imageData.isSome)) ∧
    (match body.data with
     | some (item :: _) =>
        (jsTruthy item.url = true → resultOfBody body = { success := true, imageUrl := item.url }) ∧
        (jsTruthy item.url = false → jsTruthy item.b64_json = true →
          resultOfBody body = { success := true, imageData := item.b64_json }) ∧
        (jsTruthy item.url = false → jsTruthy item.b64_json = false →
          resultOfBody body = { success := false, error := some "No image data in response" })
     | _ => resultOfBody body =
        { success := false, error := some "No image data in response" }) := by
  refine ⟨?_, resultOfBody_exactly_one body, resultOfBody_precedence body⟩
  simp [generateImage, generateImageBody, hp, hk, hb]

theorem generate_first_item_precedence_witness :
    (jsTrim "a cat" ≠ "" ∧ jsTrim "key" ≠ "" ∧ jsTrim "https://api" ≠ "") ∧
    ((generateImage { prompt := "a cat", apiKey := "key", baseUrl := "https://api" }
        (fun _ => .response true 200 none
          (.parsed { data := some [{ b64_json := some "QUJD" }] }))).1 =
      resultOfBody { data := some [{ b64_json := some "QUJD" }] } ∧
    ((resultOfBody { data := some [{ b64_json := some "QUJD" }] }).success = true →
      ((resultOfBody { data := some [{ b64_json := some "QUJD" }] }).imageUrl.isSome ∧
          (resultOfBody { data := some [{ b64_json := some "QUJD" }] }).imageData = none) ∨
        ((resultOfBody { data := some [{ b64_json := some "QUJD" }] }).imageUrl = none ∧
          (resultOfBody { data := some [{ b64_json := some "QUJD" }] }).imageData.isSome)) ∧
    (match ({ data := some [{ b64_json := some "QUJD" }] } : ResponseBody).data with
     | some (item :: _) =>
        (jsTruthy item.url = true →
          resultOfBody { data := some [{ b64_json := some "QUJD" }] } =
            { success := true, imageUrl := item.url }) ∧
        (jsTruthy item.url = false → jsTruthy item.b64_json = true →
          resultOfBody { data := some [{ b64_json := some "QUJD" }] } =
            { success := true, imageData := item.b64_json }) ∧
        (jsTruthy item.url = false → jsTruthy item.b64_json = false →
          resultOfBody { data := some [{ b64_json := some "QUJD" }] } =
            { success := false, error := some "No image data in response" })
     | _ => resultOfBody { data := some [{ b64_json := some "QUJD" }] } =
        { success := false, error := some "No image data in response" })) :=
  ⟨⟨by decide, by decide, by decide⟩,
    generate_first_item_precedence _ _ 200 none (by decide) (by decide) (by decide)⟩

/-! ### The character-creation workflow (`handleSubmit` of
`CreateCharacterModal.tsx`) -/

/-- The decimal digit character for `d`. -/
def digitChar (d : Nat) : Char := Char.ofNat (48 + d)

/-- Decimal digits of `n`, least significant first; `0` maps to the empty
list.  The first argument is structural fuel, sufficient whenever
`n ≤ fuel`. -/
def natDigitsRevFuel : Nat → Nat → List Char
  | _, 0 => []
  | 0, _ + 1 => []
  | fuel + 1, n + 1 => digitChar ((n + 1) % 10) :: natDigitsRevFuel fuel ((n + 1) / 10)

/-- Decimal digits of `n`, least significant first. -/
def natDigitsRev (n : Nat) : List Char := natDigitsRevFuel n n

/-- Model of JS number-to-string conversion for a natural number (as in the
template literal building the character id from `Date.now()`). -/
def natToString (n : Nat) : String :=
  if n = 0 then "0" else ⟨(natDigitsRev n).reverse⟩

/-- `characterId` of one `handleSubmit` invocation observed at millisecond
timestamp `now`: `char_${Date.now()}`. -/
def characterIdAt (now : Nat) : String := "char_" ++ natToString now

/-- `character_book` as it may occur in a record payload: when present its
`entries` field is a (possibly empty) ordered sequence. -/
structure CharacterBook where
  entries : List String
deriving DecidableEq

/-- The nested `data` object of the `chara_card_v2` payload built by
`handleSubmit`. -/
structure CharacterData where
  name : String
  description : String
  personality : String
  scenario : String
  first_mes : String
  mes_example : String
  creator_notes : String
  system_prompt : String
  post_history_instructions : String
  alternate_greetings : List String
  character_book : Option CharacterBook
  tags : List String
  creator : String
  character_version : String
  extensions : List (String × String)
deriving DecidableEq

/-- The raw character payload handed to `createCharacter`. -/
structure RawCharacterData where
  spec : String
  spec_version : String
  data : CharacterData
  creatorcomment : String
deriving DecidableEq

/-- The form fields of the modal at submission time, plus the optional
uploaded/generated avatar file (as its bytes). -/
structure FormInput where
  name : String
  personality : String
  scenario : String
  firstMessage : String
  creatorComment : String
  description : String
  avatarFile : Option (List Nat)
deriving DecidableEq

/-- The `rawCharacterData` literal built by `handleSubmit` from the form
fields (lines 164-185 of `CreateCharacterModal.tsx`). -/
def buildRawCharacterData (f : FormInput) : RawCharacterData :=
  { spec := "chara_card_v2"
    spec_version := "2.0"
    data := { name := jsTrim f.name
              description := jsTrim f.description
              personality := jsTrim f.personality
              scenario := jsTrim f.scenario
              first_mes := if jsTrim f.firstMessage = ""
                           then "Hello, I'm " ++ jsTrim f.name ++ "."
                           else jsTrim f.firstMessage
              mes_example := ""
              creator_notes := jsTrim f.creatorComment
              system_prompt := ""
              post_history_instructions := ""
              alternate_greetings := []
              character_book := none
              tags := []
              creator := ""
              character_version := "1.0"
              extensions := [] }
    creatorcomment := jsTrim f.creatorComment }

/-- A persisted character record: id, the raw payload, and the avatar key it
references. -/
structure CharacterRecord where
  id : String
  rawData : RawCharacterData
  avatarKey : String
deriving DecidableEq

/-- The character record store: insertion-ordered association list keyed by
id. -/
structure RecordStore where
  records : List (String × CharacterRecord)
deriving DecidableEq

/-- The blob store: keyed binary payloads, last write first. -/
structure BlobStore where
  blobs : List (String × List Nat)
deriving DecidableEq

/-- First entry under `key`, if any. -/
def findEntry {α : Type} (key : String) : List (String × α) → Option α
  | [] => none
  | (k, v) :: rest => if k = key then some v else findEntry key rest

/-- Modelled from the spec: `LocalCharacterRecordOperations.createCharacter`
(the record-store module itself is not among the sources).  Per the spec it
fails with a ValidationError when the payload misses the required `name` or
`personality`, fails when the id already exists (ids never collide within
the store's lifetime / creation is append-only), and otherwise appends the
record and returns the updated store. -/
def createCharacter (id : String) (rawData : RawCharacterData)
    (avatarKey : String) (rs : RecordStore) : Except String RecordStore :=
  if rawData.data.name = "" ∨ rawData.data.personality = "" then
    .error "ValidationError: missing required field"
  else if (findEntry id rs.records).isSome then
    .error "StorageError: id already exists"
  else
    .ok ⟨rs.records ++ [(id, { id := id, rawData := rawData, avatarKey := avatarKey })]⟩

/-- `get(id)` of the record store. -/
def RecordStore.get (rs : RecordStore) (id : String) : Option CharacterRecord :=
  findEntry id rs.records

/-- Modelled from the spec: `setBlob` (the Blob Store `put`; the
local-storage module is not among the sources).  Writing a key overwrites
silently. -/
def setBlob (key : String) (bytes : List Nat) (bs : BlobStore) : BlobStore :=
  ⟨(key, bytes) :: bs.blobs⟩

/-- An observable I/O event of one workflow invocation, in completion
order. -/
inductive WorkflowEvent where
  | recordWrite (id : String)
  | blobWrite (key : String)
deriving DecidableEq

/-- Visible outcome of one `handleSubmit` invocation. -/
inductive SubmitOutcome where
  | validationError (msg : String)
  | submitError (msg : String)
  | success
deriving DecidableEq

/-- Result of one `handleSubmit` invocation: the outcome, both stores after
the call, and the trace of completed writes in order. -/
structure SubmitResult where
  outcome : SubmitOutcome
  records : RecordStore
  blobs : BlobStore
  trace : List WorkflowEvent
deriving DecidableEq

/-- The avatar key chosen by `handleSubmit`: `${characterId}.png` when an
avatar file is present, the default sentinel otherwise. -/
def imagePathOf (f : FormInput) (now : Nat) : String :=
  match f.avatarFile with
  | some _ => characterIdAt now ++ ".png"
  | none => "default-avatar.png"

/-- `handleSubmit` of `CreateCharacterModal.tsx` (lines 140-217): validate
`name` and `personality` after trimming, build the id from the timestamp,
build the payload, `await createCharacter(...)`, then — only afterwards and
only when an avatar file exists — `await setBlob(...)`.  A rejection from
`createCharacter` is caught; no later write happens. -/
def handleSubmit (f : FormInput) (now : Nat) (rs : RecordStore)
    (bs : BlobStore) : SubmitResult :=
  if jsTrim f.name = "" then
    ⟨.validationError "Character name is required", rs, bs, []⟩
  else if jsTrim f.personality = "" then
    ⟨.validationError "Character personality is required", rs, bs, []⟩
  else
    match createCharacter (characterIdAt now) (buildRawCharacterData f)
        (imagePathOf f now) rs with
    | .error msg => ⟨.submitError msg, rs, bs, []⟩
    | .ok rs2 =>
      match f.avatarFile with
      | some bytes =>
        ⟨.success, rs2, setBlob (imagePathOf f now) bytes bs,
          [.recordWrite (characterIdAt now), .blobWrite (imagePathOf f now)]⟩
      | none => ⟨.success, rs2, bs, [.recordWrite (characterIdAt now)]⟩

/-- `true` when some blob write occurs strictly before some record write in
the trace (first occurrences compared); vacuously `true` when either kind
of write is absent. -/
def blobBeforeRecord (tr : List WorkflowEvent) : Bool :=
  match tr.findIdx? (fun e => match e with | .blobWrite _ => true | _ => false),
        tr.findIdx? (fun e => match e with | .recordWrite _ => true | _ => false) with
  | some b, some r => decide (b < r)
  | _, _ => true

/-! ### Injectivity of the id encoding -/

theorem digitChar_inj : ∀ d1 : Nat, d1 < 10 → ∀ d2 : Nat, d2 < 10 →
    digitChar d1 = digitChar d2 → d1 = d2 := by decide

theorem natDigitsRevFuel_zero (f : Nat) : natDigitsRevFuel f 0 = [] := by
  cases f <;> rfl

theorem natDigitsRevFuel_irrel : ∀ f1 n f2 : Nat, n ≤ f1 → n ≤ f2 →
    natDigitsRevFuel f1 n = natDigitsRevFuel f2 n := by
  intro f1
  induction f1 with
  | zero =>
    intro n f2 h1 h2
    have : n = 0 := Nat.le_zero.mp h1
    subst this
    simp [natDigitsRevFuel_zero]
  | succ k ih =>
    intro n f2 h1 h2
    cases n with
    | zero => simp [natDigitsRevFuel_zero]
    | succ m =>
      cases f2 with
      | zero => omega
      | succ j =>
        simp only [natDigitsRevFuel]
        rw [ih ((m + 1) / 10) j (by omega) (by omega)]

theorem natDigitsRev_succ (m : Nat) :
    natDigitsRev (m + 1) =
      digitChar ((m + 1) % 10) :: natDigitsRev ((m + 1) / 10) := by
  show natDigitsRevFuel (m + 1) (m + 1) = _
  simp only [natDigitsRevFuel]
  rw [natDigitsRevFuel_irrel m ((m + 1) / 10) ((m + 1) / 10) (by omega) (by omega)]
  rfl

theorem natDigitsRev_eq_nil (n : Nat) : natDigitsRev n = [] ↔ n = 0 := by
  cases n with
  | zero => simp [natDigitsRev, natDigitsRevFuel_zero]
  | succ m => simp [natDigitsRev_succ]

theorem natDigitsRev_inj : ∀ a b : Nat, natDigitsRev a = natDigitsRev b → a = b := by
  intro a
  induction a using Nat.strong_induction_on with
  | _ a ih =>
    intro b h
    cases a with
    | zero =>
      cases b with
      | zero => rfl
      | succ m => rw [natDigitsRev_succ] at h; simp [natDigitsRev, natDigitsRevFuel_zero] at h
    | succ n =>
      cases b with
      | zero => rw [natDigitsRev_succ] at h; simp [natDigitsRev, natDigitsRevFuel_zero] at h
      | succ m =>
        rw [natDigitsRev_succ, natDigitsRev_succ] at h
        injection h with h1 h2
        have e1 : (n + 1) % 10 = (m + 1) % 10 :=
          digitChar_inj _ (by omega) _ (by omega) h1
        have e2 : (n + 1) / 10 = (m + 1) / 10 :=
          ih ((n + 1) / 10) (by omega) ((m + 1) / 10) h2
        omega

theorem natToString_inj : ∀ a b : Nat, natToString a = natToString b → a = b := by
  intro a b h
  unfold natToString at h
  by_cases ha : a = 0 <;> by_cases hb : b = 0 <;> simp [ha, hb] at h ⊢
  · -- a = 0, b ≠ 0 : "0" = ⟨(natDigitsRev b).reverse⟩ is impossible
    exfalso
    have hd : List.reverse (natDigitsRev b) = ['0'] :=
      (congrArg String.data h).symm
    have hb1 : natDigitsRev b = ['0'] := by
      have := congrArg List.reverse hd
      simpa using this
    cases b with
    | zero => exact hb rfl
    | succ m =>
      rw [natDigitsRev_succ] at hb1
      injection hb1 with h1 h2
      have h3 : (m + 1) / 10 = 0 := (natDigitsRev_eq_nil _).mp h2
      have h4 : (m + 1) % 10 = m + 1 := by omega
      have h5 : (m + 1) % 10 = 0 := by
        have : digitChar ((m + 1) % 10) = digitChar 0 := h1
        exact digitChar_inj _ (by omega) 0 (by decide) this
      omega
  · -- a ≠ 0, b = 0 : symmetric
    exfalso
    have hd : List.reverse (natDigitsRev a) = ['0'] := congrArg String.data h
    have ha1 : natDigitsRev a = ['0'] := by
      have := congrArg List.reverse hd
      simpa using this
    cases a with
    | zero => exact ha rfl
    | succ m =>
      rw [natDigitsRev_succ] at ha1
      injection ha1 with h1 h2
      have h3 : (m + 1) / 10 = 0 := (natDigitsRev_eq_nil _).mp h2
      have h5 : (m + 1) % 10 = 0 := by
        have : digitChar ((m + 1) % 10) = digitChar 0 := h1
        exact digitChar_inj _ (by omega) 0 (by decide) this
      omega
  · -- both nonzero
    have hd := congrArg String.data h
    have : natDigitsRev a = natDigitsRev b := by
      have := congrArg List.reverse hd
      simpa using this
    exact natDigitsRev_inj a b this

theorem characterIdAt_inj (t1 t2 : Nat)
    (h : characterIdAt t1 = characterIdAt t2) : t1 = t2 := by
  unfold characterIdAt at h
  have hd := congrArg String.data h
  rw [String.data_append, String.data_append] at hd
  have : (natToString t1).data = (natToString t2).data :=
    List.append_cancel_left hd
  exact natToString_inj t1 t2 (String.ext this)

/-! ### Example inputs for the workflow claims -/

/-- Example form: valid fields, an avatar file attached. -/
def adaAvatarForm : FormInput :=
  { name := "Ada", personality := "curious", scenario := "",
    firstMessage := "", creatorComment := "", description := "",
    avatarFile := some [1, 2, 3] }

/-- Example form: valid fields, no avatar. -/
def adaForm : FormInput :=
  { name := "Ada", personality := "curious", scenario := "",
    firstMessage := "", creatorComment := "", description := "",
    avatarFile := none }

/-- Second example form with a distinct name, no avatar. -/
def bobForm : FormInput :=
  { name := "Bob", personality := "bold", scenario := "",
    firstMessage := "", creatorComment := "", description := "",
    avatarFile := none }

/-- Example form with an empty name. -/
def namelessForm : FormInput :=
  { name := "", personality := "bold", scenario := "",
    firstMessage := "", creatorComment := "", description := "",
    avatarFile := none }

/-! ### C1: write ordering inside one workflow invocation -/

/-- C1 as stated is false: in an avatar-producing invocation the record
write (`createCharacter`) completes before the blob write (`setBlob`), so
the blob write does NOT strictly precede the record write — the trace shows
the record write first. -/
theorem blob_before_record_counterexample :
    blobBeforeRecord (handleSubmit adaAvatarForm 0 ⟨[]⟩ ⟨[]⟩).trace = false ∧
    (handleSubmit adaAvatarForm 0 ⟨[]⟩ ⟨[]⟩).trace =
      [.recordWrite "char_0", .blobWrite "char_0.png"] := by
  constructor
  · decide
  · decide

/-- C1 (amended): within every `handleSubmit` invocation the record write
strictly precedes the blob write — the trace is empty, a lone record write,
or a record write followed by the blob write of `${characterId}.png`; in
particular a record can be persisted whose `avatarKey` names a blob key not
yet written. -/
theorem record_write_precedes_blob_write (f : FormInput) (now : Nat)
    (rs : RecordStore) (bs : BlobStore) :
    (handleSubmit f now rs bs).trace = [] ∨
    (handleSubmit f now rs bs).trace = [.recordWrite (characterIdAt now)] ∨
    (handleSubmit f now rs bs).trace =
      [.recordWrite (characterIdAt now),
       .blobWrite (characterIdAt now ++ ".png")] := by
  unfold handleSubmit
  repeat' split
  all_goals simp_all [imagePathOf]

/-! ### C5: the built payload's `character_book` -/

/-- C5 as stated is false: the payload built by `handleSubmit` sets
`character_book` to `null` (the absent value) — it is not coerced to a
present book with an empty `entries` sequence. -/
theorem character_book_counterexample :
    (buildRawCharacterData adaForm).data.character_book ≠
      some { entries := [] } ∧
    (buildRawCharacterData adaForm).data.character_book = none := by
  constructor
  · decide
  · decide

/-- C5 (amended): in every payload constructed by the workflow the
`character_book` field is the absent/null value; no book (with or without
entries) is ever constructed. -/
theorem character_book_always_null (f : FormInput) :
    (buildRawCharacterData f).data.character_book = none := rfl

/-! ### C6: validation before any I/O -/

/-- C6: when `name` or `personality` trims to empty, `handleSubmit` stops
with a validation error before any I/O: both stores are returned unchanged
and the write trace is empty (in particular no record or blob write
happens and no id is consumed). -/
theorem validation_rejects_before_io (f : FormInput) (now : Nat)
    (rs : RecordStore) (bs : BlobStore)
    (h : jsTrim f.name = "" ∨ jsTrim f.personality = "") :
    ∃ msg, handleSubmit f now rs bs =
      ⟨.validationError msg, rs, bs, []⟩ := by
  by_cases hn : jsTrim f.name = ""
  · exact ⟨"Character name is required", by simp [handleSubmit, hn]⟩
  · have hp : jsTrim f.personality = "" := h.resolve_left hn
    exact ⟨"Character personality is required", by simp [handleSubmit, hn, hp]⟩

theorem validation_rejects_before_io_witness :
    (jsTrim namelessForm.name = "" ∨ jsTrim namelessForm.personality = "") ∧
    (∃ msg, handleSubmit namelessForm 7 ⟨[]⟩ ⟨[]⟩ =
      ⟨.validationError msg, ⟨[]⟩, ⟨[]⟩, []⟩) :=
  ⟨Or.inl rfl, validation_rejects_before_io namelessForm 7 ⟨[]⟩ ⟨[]⟩ (Or.inl rfl)⟩

/-! ### C9: back-to-back creations -/

/-- C9 as stated is false: two back-to-back creations with distinct names
that fall into the same `Date.now()` millisecond get the SAME id
(`char_5`), so the second `createCharacter` rejects the duplicate id and
only one record exists afterwards — not two distinct retrievable
records. -/
theorem same_millisecond_collision_counterexample :
    (handleSubmit adaForm 5 ⟨[]⟩ ⟨[]⟩).outcome = .success ∧
    (handleSubmit bobForm 5 (handleSubmit adaForm 5 ⟨[]⟩ ⟨[]⟩).records
        (handleSubmit adaForm 5 ⟨[]⟩ ⟨[]⟩).blobs).outcome =
      .submitError "StorageError: id already exists" ∧
    (handleSubmit bobForm 5 (handleSubmit adaForm 5 ⟨[]⟩ ⟨[]⟩).records
        (handleSubmit adaForm 5 ⟨[]⟩ ⟨[]⟩).blobs).records.records.length = 1 := by
  refine ⟨?_, ?_, ?_⟩ <;> decide

/-- The record persisted for form `f` at timestamp `t`. -/
def recordOf (f : FormInput) (t : Nat) : CharacterRecord :=
  { id := characterIdAt t, rawData := buildRawCharacterData f,
    avatarKey := imagePathOf f t }

theorem handleSubmit_fresh_records (f : FormInput) (t : Nat) (bs : BlobStore)
    (hn : jsTrim f.name ≠ "") (hp : jsTrim f.personality ≠ "") :
    (handleSubmit f t ⟨[]⟩ bs).records = ⟨[(characterIdAt t, recordOf f t)]⟩ := by
  unfold handleSubmit createCharacter
  simp [buildRawCharacterData, hn, hp, findEntry, recordOf, imagePathOf]
  cases f.avatarFile <;> simp [imagePathOf]

theorem handleSubmit_second_records (f : FormInput) (t : Nat) (bs : BlobStore)
    (id0 : String) (rec0 : CharacterRecord)
    (hn : jsTrim f.name ≠ "") (hp : jsTrim f.personality ≠ "")
    (hid : id0 ≠ characterIdAt t) :
    (handleSubmit f t ⟨[(id0, rec0)]⟩ bs).records =
      ⟨[(id0, rec0), (characterIdAt t, recordOf f t)]⟩ := by
  unfold handleSubmit createCharacter
  simp [buildRawCharacterData, hn, hp, findEntry, hid, recordOf, imagePathOf]
  cases f.avatarFile <;> simp [imagePathOf]

/-- C9 (amended): two back-to-back creations on a fresh store with distinct
names, both valid, observing DISTINCT `Date.now()` milliseconds, produce
two distinct ids and two distinct records retrievable independently via
`get`. -/
theorem distinct_timestamps_distinct_records (f1 f2 : FormInput) (t1 t2 : Nat)
    (ht : t1 ≠ t2)
    (h1n : jsTrim f1.name ≠ "") (h1p : jsTrim f1.personality ≠ "")
    (h2n : jsTrim f2.name ≠ "") (h2p : jsTrim f2.personality ≠ "")
    (hnames : jsTrim f1.name ≠ jsTrim f2.name) :
    characterIdAt t1 ≠ characterIdAt t2 ∧
    (handleSubmit f2 t2 (handleSubmit f1 t1 ⟨[]⟩ ⟨[]⟩).records
        (handleSubmit f1 t1 ⟨[]⟩ ⟨[]⟩).blobs).records.get (characterIdAt t1) =
      some (recordOf f1 t1) ∧
    (handleSubmit f2 t2 (handleSubmit f1 t1 ⟨[]⟩ ⟨[]⟩).records
        (handleSubmit f1 t1 ⟨[]⟩ ⟨[]⟩).blobs).records.get (characterIdAt t2) =
      some (recordOf f2 t2) ∧
    recordOf f1 t1 ≠ recordOf f2 t2 := by
  have hid : characterIdAt t1 ≠ characterIdAt t2 :=
    fun hc => ht (characterIdAt_inj t1 t2 hc)
  have hr1 := handleSubmit_fresh_records f1 t1 ⟨[]⟩ h1n h1p
  have hr2 := handleSubmit_second_records f2 t2
    (handleSubmit f1 t1 ⟨[]⟩ ⟨[]⟩).blobs
    (characterIdAt t1) (recordOf f1 t1) h2n h2p hid
  rw [hr1]
  refine ⟨hid, ?_, ?_, ?_⟩
  · rw [hr2]
    simp [RecordStore.get, findEntry]
  · rw [hr2]
    simp [RecordStore.get, findEntry, hid]
  · intro hcontra
    have := congrArg (fun r => r.rawData.data.name) hcontra
    exact hnames (by simpa [recordOf, buildRawCharacterData] using this)

theorem distinct_timestamps_distinct_records_witness :
    ((3 : Nat) ≠ 4 ∧ jsTrim adaForm.name ≠ "" ∧ jsTrim adaForm.personality ≠ "" ∧
      jsTrim bobForm.name ≠ "" ∧ jsTrim bobForm.personality ≠ "" ∧
      jsTrim adaForm.name ≠ jsTrim bobForm.name) ∧
    (characterIdAt 3 ≠ characterIdAt 4 ∧
    (handleSubmit bobForm 4 (handleSubmit adaForm 3 ⟨[]⟩ ⟨[]⟩).records
        (handleSubmit adaForm 3 ⟨[]⟩ ⟨[]⟩).blobs).records.get (characterIdAt 3) =
      some (recordOf adaForm 3) ∧
    (handleSubmit bobForm 4 (handleSubmit adaForm 3 ⟨[]⟩ ⟨[]⟩).records
        (handleSubmit adaForm 3 ⟨[]⟩ ⟨[]⟩).blobs).records.get (characterIdAt 4) =
      some (recordOf bobForm 4) ∧
    recordOf adaForm 3 ≠ recordOf bobForm 4) :=
  ⟨⟨by decide, by decide, by decide, by decide, by decide, by decide⟩,
    distinct_timestamps_distinct_records adaForm bobForm 3 4 (by decide)
      (by decide) (by decide) (by decide) (by decide) (by decide)⟩

/-! ### C8: `base64ToFile` and the inline-data round trip -/

/-- The base64 alphabet. -/
def b64Chars : List Char :=
  "ABCDEFGHIJKLMNOPQRSTUVWXYZabcdefghijklmnopqrstuvwxyz0123456789+/".data

/-- Character of base64 digit `i` (reference encoder). -/
def encodeChar (i : Nat) : Char := b64Chars.getD i 'A'

/-- Base64 digit of a character (the lookup performed by `atob`). -/
def decodeChar (c : Char) : Nat := b64Chars.findIdx (fun x => x = c)

/-- Reference base64 encoder (RFC 4648) over byte lists: three bytes per
four characters, `=`-padded. -/
def encodeBase64 : List Nat → List Char
  | [] => []
  | [a] => [encodeChar (a / 4), encodeChar (a % 4 * 16), '=', '=']
  | [a, b] => [encodeChar (a / 4), encodeChar (a % 4 * 16 + b / 16),
               encodeChar (b % 16 * 4), '=']
  | a :: b :: c :: rest =>
      encodeChar (a / 4) :: encodeChar (a % 4 * 16 + b / 16) ::
        encodeChar (b % 16 * 4 + c / 64) :: encodeChar (c % 64) :: encodeBase64 rest

/-- Model of `atob` plus the `charCodeAt` loop of `base64ToFile`: decode
padding-free base64 text into bytes, four characters at a time (a trailing
group of two or three characters yields one or two bytes). -/
def decodeQuads : List Char → List Nat
  | [a, b] => [decodeChar a * 4 + decodeChar b / 16]
  | [a, b, c] => [decodeChar a * 4 + decodeChar b / 16,
                  decodeChar b % 16 * 16 + decodeChar c / 4]
  | a :: b :: c :: d :: rest =>
      (decodeChar a * 4 + decodeChar b / 16) ::
        (decodeChar b % 16 * 16 + decodeChar c / 4) ::
          (decodeChar c % 4 * 64 + decodeChar d) :: decodeQuads rest
  | _ => []

/-- `atob` applied to a base64 string with `=` padding, read into a byte
list. -/
def atobBytes (s : List Char) : List Nat :=
  decodeQuads (s.filter (fun c => c != '='))

/-- Model of a JS `File`: bytes, filename and MIME type. -/
structure FileModel where
  bytes : List Nat
  name : String
  type : String
deriving DecidableEq

/-- Match a literal at the front of a character list, returning the
remainder on success. -/
def dropLiteral : List Char → List Char → Option (List Char)
  | [], s => some s
  | _ :: _, [] => none
  | l :: ls, c :: cs => if c = l then dropLiteral ls cs else none

/-- JS regex `\w`: ASCII letters, digits, underscore. -/
def isWordChar (c : Char) : Bool := c.isAlphanum || c = '_'

/-- `base64Data.replace(/^data:image\/\w+;base64,/, "")`: strip the data-URL
header when the string starts with `data:image/`, one or more word
characters, and `;base64,`; otherwise return the string unchanged. -/
def stripDataUrlHeader (s : String) : String :=
  match dropLiteral "data:image/".data s.data with
  | none => s
  | some rest =>
    if rest.takeWhile isWordChar = [] then s
    else
      match dropLiteral ";base64,".data (rest.dropWhile isWordChar) with
      | none => s
      | some rest2 => ⟨rest2⟩

/-- `base64ToFile`: strip the optional data-URL header, decode the rest via
`atob` into bytes, and wrap them as an `image/png` file with the given
name. -/
def base64ToFile (base64Data : String) (filename : String) : FileModel :=
  { bytes := atobBytes (stripDataUrlHeader base64Data).data
    name := filename
    type := "image/png" }

theorem decodeChar_encodeChar : ∀ i : Nat, i < 64 →
    decodeChar (encodeChar i) = i := by decide

theorem encodeChar_mem (i : Nat) : encodeChar i ∈ b64Chars := by
  unfold encodeChar
  rcases h : b64Chars.get? i with _ | c
  · rw [List.getD_eq_getD_get?, h]
    decide
  · rw [List.getD_eq_getD_get?, h]
    exact List.get?_mem h

theorem encodeChar_not_pad (i : Nat) : (encodeChar i != '=') = true := by
  simp only [bne_iff_ne, ne_eq]
  intro hc
  have h := encodeChar_mem i
  rw [hc] at h
  exact absurd h (by decide)

theorem encodeBase64_mem : ∀ bs : List Nat, ∀ c ∈ encodeBase64 bs,
    c ∈ b64Chars ∨ c = '=' := by
  intro bs
  induction bs using encodeBase64.induct with
  | case1 =>
    intro c hc
    simp [encodeBase64] at hc
  | case2 a =>
    intro c hc
    simp [encodeBase64] at hc
    rcases hc with rfl | rfl | rfl <;>
      first
      | exact Or.inl (encodeChar_mem _)
      | exact Or.inr rfl
  | case3 a b =>
    intro c hc
    simp [encodeBase64] at hc
    rcases hc with rfl | rfl | rfl | rfl <;>
      first
      | exact Or.inl (encodeChar_mem _)
      | exact Or.inr rfl
  | case4 a b c rest ih =>
    intro x hx
    simp [encodeBase64] at hx
    rcases hx with rfl | rfl | rfl | rfl | hmem
    · exact Or.inl (encodeChar_mem _)
    · exact Or.inl (encodeChar_mem _)
    · exact Or.inl (encodeChar_mem _)
    · exact Or.inl (encodeChar_mem _)
    · exact ih x hmem

/-- The round trip: decoding the reference encoding of any byte list gives
back exactly the original bytes. -/
theorem atobBytes_encodeBase64 : ∀ bs : List Nat, (∀ x ∈ bs, x < 256) →
    atobBytes (encodeBase64 bs) = bs := by
  intro bs
  induction bs using encodeBase64.induct with
  | case1 =>
    intro h
    rfl
  | case2 a =>
    intro h
    have ha : a < 256 := h a (by simp)
    have d1 := decodeChar_encodeChar (a / 4) (by omega)
    have d2 := decodeChar_encodeChar (a % 4 * 16) (by omega)
    simp [atobBytes, encodeBase64, List.filter, encodeChar_not_pad,
      decodeQuads, d1, d2]
    omega
  | case3 a b =>
    intro h
    have ha : a < 256 := h a (by simp)
    have hb : b < 256 := h b (by simp)
    have d1 := decodeChar_encodeChar (a / 4) (by omega)
    have d2 := decodeChar_encodeChar (a % 4 * 16 + b / 16) (by omega)
    have d3 := decodeChar_encodeChar (b % 16 * 4) (by omega)
    simp [atobBytes, encodeBase64, List.filter, encodeChar_not_pad,
      decodeQuads, d1, d2, d3]
    constructor
    · omega
    · omega
  | case4 a b c rest ih =>
    intro h
    have ha : a < 256 := h a (by simp)
    have hb : b < 256 := h b (by simp)
    have hc : c < 256 := h c (by simp)
    have hrest : ∀ x ∈ rest, x < 256 := fun x hx => h x (by simp [hx])
    have d1 := decodeChar_encodeChar (a / 4) (by omega)
    have d2 := decodeChar_encodeChar (a % 4 * 16 + b / 16) (by omega)
    have d3 := decodeChar_encodeChar (b % 16 * 4 + c / 64) (by omega)
    have d4 := decodeChar_encodeChar (c % 64) (by omega)
    have htail := ih hrest
    simp only [atobBytes] at htail
    simp [atobBytes, encodeBase64, List.filter, encodeChar_not_pad,
      decodeQuads, d1, d2, d3, d4, htail]
    refine ⟨by omega, by omega, by omega⟩

theorem dropLiteral_append : ∀ l r : List Char, dropLiteral l (l ++ r) = some r := by
  intro l
  induction l with
  | nil => intro r; rfl
  | cons x xs ih => intro r; simp [dropLiteral, ih]

theorem dropLiteral_eq_some : ∀ l s r : List Char,
    dropLiteral l s = some r → s = l ++ r := by
  intro l
  induction l with
  | nil =>
    intro s r h
    simp [dropLiteral] at h
    simp [h]
  | cons x xs ih =>
    intro s r h
    cases s with
    | nil => simp [dropLiteral] at h
    | cons y ys =>
      simp only [dropLiteral] at h
      by_cases hxy : y = x
      · rw [if_pos hxy] at h
        subst hxy
        rw [ih ys r h]
        simp
      · rw [if_neg hxy] at h
        exact absurd h (by simp)

theorem takeWhile_append_all (p : Char → Bool) :
    ∀ t r : List Char, (∀ c ∈ t, p c = true) →
      (t ++ r).takeWhile p = t ++ r.takeWhile p := by
  intro t
  induction t with
  | nil => intro r h; rfl
  | cons x xs ih =>
    intro r h
    have hx : p x = true := h x (by simp)
    simp [List.takeWhile_cons, hx]
    exact ih r fun c hcm => h c (by simp [hcm])

theorem dropWhile_append_all (p : Char → Bool) :
    ∀ t r : List Char, (∀ c ∈ t, p c = true) →
      (t ++ r).dropWhile p = r.dropWhile p := by
  intro t
  induction t with
  | nil => intro r h; rfl
  | cons x xs ih =>
    intro r h
    have hx : p x = true := h x (by simp)
    simp [List.dropWhile_cons, hx]
    exact ih r fun c hcm => h c (by simp [hcm])

theorem stripDataUrlHeader_encode (bs : List Nat) :
    stripDataUrlHeader ⟨encodeBase64 bs⟩ = ⟨encodeBase64 bs⟩ := by
  unfold stripDataUrlHeader
  cases h : dropLiteral "data:image/".data (String.mk (encodeBase64 bs)).data with
  | none => rfl
  | some rest =>
    exfalso
    have heq : encodeBase64 bs = "data:image/".data ++ rest :=
      dropLiteral_eq_some _ _ _ h
    have hcolon : ':' ∈ encodeBase64 bs := by
      rw [heq]
      exact List.mem_append.mpr (Or.inl (by decide))
    rcases encodeBase64_mem bs ':' hcolon with hmem | hpad
    · exact absurd hmem (by decide)
    · exact absurd hpad (by decide)

theorem stripDataUrlHeader_with_header (t : List Char) (bs : List Nat)
    (ht1 : t ≠ []) (ht2 : ∀ c ∈ t, isWordChar c = true) :
    stripDataUrlHeader
        ⟨"data:image/".data ++ t ++ ";base64,".data ++ encodeBase64 bs⟩ =
      ⟨encodeBase64 bs⟩ := by
  unfold stripDataUrlHeader
  have hdata : (String.mk ("data:image/".data ++ t ++ ";base64,".data ++
      encodeBase64 bs)).data =
      "data:image/".data ++ (t ++ (";base64,".data ++ encodeBase64 bs)) := by
    simp [List.append_assoc]
  rw [hdata, dropLiteral_append]
  have hsemi : isWordChar ';' = false := by decide
  have htake : (t ++ (";base64,".data ++ encodeBase64 bs)).takeWhile isWordChar =
      t ++ ((";base64,".data ++ encodeBase64 bs).takeWhile isWordChar) :=
    takeWhile_append_all isWordChar t _ ht2
  have htake2 : ((";base64,".data ++ encodeBase64 bs).takeWhile isWordChar :
      List Char) = [] := by
    show ((';' :: ("base64,".data ++ encodeBase64 bs)).takeWhile isWordChar :
      List Char) = []
    simp [List.takeWhile_cons, hsemi]
  have hdrop : (t ++ (";base64,".data ++ encodeBase64 bs)).dropWhile isWordChar =
      ";base64,".data ++ encodeBase64 bs := by
    rw [dropWhile_append_all isWordChar t _ ht2]
    show ((';' :: ("base64,".data ++ encodeBase64 bs)).dropWhile isWordChar :
      List Char) = _
    simp [List.dropWhile_cons, hsemi]
  dsimp only
  rw [htake, htake2, hdrop, dropLiteral_append]
  simp [ht1]

/-- C8: encoding any byte sequence with the reference base64 encoder,
optionally prepending a recognized `data:image/<type>;base64,` header, and
applying `base64ToFile`, strips the header when present and decodes back to
exactly the original bytes, wrapped as an `image/png` file with the given
name. -/
theorem base64ToFile_roundtrip (bs : List Nat) (t : List Char) (filename : String)
    (hb : ∀ x ∈ bs, x < 256) (ht1 : t ≠ [])
    (ht2 : ∀ c ∈ t, isWordChar c = true) :
    base64ToFile ⟨"data:image/".data ++ t ++ ";base64,".data ++ encodeBase64 bs⟩
        filename = { bytes := bs, name := filename, type := "image/png" } ∧
    base64ToFile ⟨encodeBase64 bs⟩ filename =
      { bytes := bs, name := filename, type := "image/png" } := by
  constructor
  · unfold base64ToFile
    rw [stripDataUrlHeader_with_header t bs ht1 ht2]
    simp [atobBytes_encodeBase64 bs hb]
  · unfold base64ToFile
    rw [stripDataUrlHeader_encode]
    simp [atobBytes_encodeBase64 bs hb]

theorem base64ToFile_roundtrip_witness :
    ((∀ x ∈ [77, 97, 110], x < 256) ∧ "png".data ≠ [] ∧
      (∀ c ∈ "png".data, isWordChar c = true)) ∧
    (base64ToFile ⟨"data:image/".data ++ "png".data ++ ";base64,".data ++
        encodeBase64 [77, 97, 110]⟩ "m.png" =
      { bytes := [77, 97, 110], name := "m.png", type := "image/png" } ∧
    base64ToFile ⟨encodeBase64 [77, 97, 110]⟩ "m.png" =
      { bytes := [77, 97, 110], name := "m.png", type := "image/png" }) :=
  ⟨⟨by decide, by decide, by decide⟩,
    base64ToFile_roundtrip [77, 97, 110] "png".data "m.png"
      (by decide) (by decide) (by decide)⟩

end CloudGPTRP
